import Mathlib

/-
Verification of the session-lifecycle and connection-protocol layer of
`rio/app_server/fastapi_server.py`.

The Python module is shallowly embedded: the mutable dictionaries
`_latent_session_tokens`, `_active_session_tokens` and
`_pending_file_uploads` become association lists over `String` keys,
handlers become pure functions from a state to a new state plus a trace
of observable actions, and exceptions become explicit result values.
Python dictionaries have unique keys, so `dict.pop` is modelled by
removing every binding of the key (identical behaviour on unique-key
lists) and `d[k] = v` by replacing the first binding or appending.
-/

/-- Lookup in a Python-dict modelled as an association list
(`d[k]` / `d.get(k)`). -/
def dictLookup {α : Type} (m : List (String × α)) (k : String) : Option α :=
  match m with
  | [] => none
  | (k₂, v) :: rest => if k₂ = k then some v else dictLookup rest k

/-- Assignment `d[k] = v` on a Python-dict modelled as an association
list: replaces the first binding of `k`, or appends a new one. -/
def dictInsert {α : Type} (m : List (String × α)) (k : String) (v : α) :
    List (String × α) :=
  match m with
  | [] => [(k, v)]
  | (k₂, v₂) :: rest =>
      if k₂ = k then (k, v) :: rest else (k₂, v₂) :: dictInsert rest k v

/-- Removal `d.pop(k)` on a Python-dict modelled as an association list.
Keys in a Python dict are unique, so dropping every binding of `k`
coincides with removing the single one. -/
def dictErase {α : Type} (m : List (String × α)) (k : String) :
    List (String × α) :=
  match m with
  | [] => []
  | (k₂, v) :: rest =>
      if k₂ = k then dictErase rest k else (k₂, v) :: dictErase rest k

@[simp]
theorem dictLookup_insert {α : Type} (m : List (String × α)) (k : String)
    (v : α) : dictLookup (dictInsert m k v) k = some v := by
  induction m with
  | nil => simp [dictInsert, dictLookup]
  | cons hd tl ih =>
      by_cases h : hd.1 = k
      · simp [dictInsert, dictLookup, h]
      · simp [dictInsert, dictLookup, h, ih]

@[simp]
theorem dictLookup_insert_ne {α : Type} (m : List (String × α))
    (k k₂ : String) (v : α) (hne : k ≠ k₂) :
    dictLookup (dictInsert m k v) k₂ = dictLookup m k₂ := by
  induction m with
  | nil => simp [dictInsert, dictLookup, hne]
  | cons hd tl ih =>
      by_cases h : hd.1 = k
      · have : ¬ k = k₂ := hne
        simp [dictInsert, dictLookup, h, this]
      · simp [dictInsert, dictLookup, h, ih]

@[simp]
theorem dictLookup_erase {α : Type} (m : List (String × α)) (k : String) :
    dictLookup (dictErase m k) k = none := by
  induction m with
  | nil => simp [dictErase, dictLookup]
  | cons hd tl ih =>
      by_cases h : hd.1 = k
      · simpa [dictErase, dictLookup, h] using ih
      · simp [dictErase, dictLookup, h]
        exact ih

@[simp]
theorem dictLookup_erase_ne {α : Type} (m : List (String × α))
    (k k₂ : String) (hne : k ≠ k₂) :
    dictLookup (dictErase m k) k₂ = dictLookup m k₂ := by
  induction m with
  | nil => simp [dictErase, dictLookup]
  | cons hd tl ih =>
      by_cases h : hd.1 = k
      · simp [dictErase, dictLookup, h, hne]
        exact ih
      · by_cases h₃ : hd.1 = k₂
        · have h₄ : k₂ ≠ k := fun hc => hne hc.symm
          simp [dictErase, dictLookup, h, h₃, h₄]
        · simp [dictErase, dictLookup, h, h₃]
          exact ih

/-- A live logical session as far as the connection layer observes it:
its identity, the currently bound socket (`_websocket`, nullable), the
`_is_active_event` flag, and `_last_interaction_timestamp` in monotonic
seconds. -/
structure Session where
  sessionId : Nat
  websocket : Option Nat
  isActiveEvent : Bool
  lastInteractionTimestamp : Int
deriving DecidableEq, Repr

/-- The token maps owned by `FastapiServer`: `_latent_session_tokens`
(token to the originating HTTP request, identified by a number) and
`_active_session_tokens` (token to live session handle). -/
structure ServerState where
  latentSessionTokens : List (String × Nat)
  activeSessionTokens : List (String × Session)
deriving DecidableEq, Repr

/-- The coroutine handed to `asyncio.create_task` by `_serve_websocket`. -/
inductive InitCoro where
  | sendAllComponentsOnReconnect (sessionId : Nat)
  | refresh (sessionId : Nat)
deriving DecidableEq, Repr

/-- Observable actions of the websocket handler, in program order. -/
inductive WsAction where
  | acceptSocket
  | closeSocket (code : Nat) (reason : String)
  | setIsActiveEvent (sessionId : Nat)
  | createTask (coro : InitCoro)
  | serve (sessionId : Nat)
deriving DecidableEq, Repr

/-- `_serve_index` on a non-crawler request: a fresh token is generated
by `secrets.token_urlsafe()` and stored in `_latent_session_tokens`
(lines 449-452). Only the latent map is touched. -/
def serveIndexRegisterToken (st : ServerState) (sessionToken : String)
    (request : Nat) : ServerState :=
  { st with
      latentSessionTokens :=
        dictInsert st.latentSessionTokens sessionToken request }

/-- `_serve_websocket` from entry up to and including entering
`sess.serve()` (lines 836-885).  The handler first awaits
`_can_create_new_sessions.wait()`: while that gate event is unset the
coroutine is suspended there, so with `gateOpen = false` nothing below
the wait runs (no accept, no lookup, no close).  With the gate open the
socket is accepted, the token is popped from the latent map (new
session) or looked up in the active map (reconnect), or the socket is
closed with code 3000.  `_create_session_from_websocket` awaits the
initial client message and may fail (timeout, navigation failure);
`sessionCreationSucceeds` selects that outcome.  Returns the new state,
the action trace, and the session being served, if any. -/
def serveWebsocketUpToServe (gateOpen : Bool) (st : ServerState)
    (sessionToken : String) (freshSessionId : Nat)
    (sessionCreationSucceeds : Bool) :
    ServerState × List WsAction × Option Session :=
  if gateOpen = false then
    (st, [], none)
  else
    match dictLookup st.latentSessionTokens sessionToken with
    | some _request =>
        let st₁ : ServerState :=
          { st with
              latentSessionTokens :=
                dictErase st.latentSessionTokens sessionToken }
        if sessionCreationSucceeds then
          let sess : Session :=
            { sessionId := freshSessionId
              websocket := some 0
              isActiveEvent := true
              lastInteractionTimestamp := 0 }
          let st₂ : ServerState :=
            { st₁ with
                activeSessionTokens :=
                  dictInsert st₁.activeSessionTokens sessionToken sess }
          (st₂,
            [WsAction.acceptSocket,
             WsAction.createTask (InitCoro.refresh freshSessionId),
             WsAction.serve freshSessionId],
            some sess)
        else
          (st₁, [WsAction.acceptSocket], none)
    | none =>
        match dictLookup st.activeSessionTokens sessionToken with
        | some sess =>
            let sess₂ : Session := { sess with isActiveEvent := true }
            let st₁ : ServerState :=
              { st with
                  activeSessionTokens :=
                    dictInsert st.activeSessionTokens sessionToken sess₂ }
            (st₁,
              [WsAction.acceptSocket,
               WsAction.setIsActiveEvent sess.sessionId,
               WsAction.createTask
                 (InitCoro.sendAllComponentsOnReconnect sess.sessionId),
               WsAction.serve sess.sessionId],
              some sess₂)
        | none =>
            (st,
              [WsAction.acceptSocket,
               WsAction.closeSocket 3000 "Invalid session token."],
              none)

/-- A token is present in at most one of the two maps. -/
def mapsDisjoint (st : ServerState) : Prop :=
  ∀ t : String,
    (dictLookup st.latentSessionTokens t).isSome = true →
    dictLookup st.activeSessionTokens t = none

/-- `LOOP_INTERVAL` of `_periodically_clean_up_expired_sessions`
(line 131): seconds slept between reaper passes. -/
def LOOP_INTERVAL : Nat := 60 * 15

/-- `SESSION_LIFETIME` of `_periodically_clean_up_expired_sessions`
(line 132): idle seconds after which a session is reaped. -/
def SESSION_LIFETIME : Nat := 60 * 60

/-- The cutoff computed by one reaper pass (lines 141-142):
`now - SESSION_LIFETIME`, with monotonic time in seconds. -/
def reaperCutoff (now : Int) : Int :=
  now - (SESSION_LIFETIME : Int)

/-- One pass of the reaper loop body (lines 144-146): the sessions of
the active map on which `sess.close()` is called, namely those with
`_last_interaction_timestamp < cutoff`. -/
def reaperPassClosedSessions (now : Int) (active : List (String × Session)) :
    List Session :=
  (active.map Prod.snd).filter
    (fun sess => sess.lastInteractionTimestamp < reaperCutoff now)

/-- The result of a `FileInfo(...)` constructor call in
`_serve_file_upload` (lines 755-760); the stream contents are kept
opaque. -/
structure FileInfo where
  name : String
  size_in_bytes : Int
  media_type : String
  contents : String
deriving DecidableEq, Repr

/-- The HTTP outcome of `_serve_file_upload`. -/
inductive UploadResult where
  | response200
  | httpError400 (detail : String)
  | httpError422 (detail : String)
deriving DecidableEq, Repr

/-- Starts of the Unicode decimal-digit (Nd) blocks: each block is ten
consecutive code points carrying the digit values 0 to 9.  CPython
`int()` accepts exactly these characters as digits (Unicode 14.0
database, `unicodedata.decimal`). -/
def decimalDigitBlockStarts : List Nat :=
  [48, 1632, 1776, 1984, 2406, 2534, 2662, 2790, 2918, 3046, 3174, 3302,
   3430, 3558, 3664, 3792, 3872, 4160, 4240, 6112, 6160, 6470, 6608, 6784,
   6800, 6992, 7088, 7232, 7248, 42528, 43216, 43264, 43472, 43504, 43600,
   44016, 65296, 66720, 68912, 69734, 69872, 69942, 70096, 70384, 70736,
   70864, 71248, 71360, 71472, 71904, 72016, 72784, 73040, 73120, 92768,
   92864, 93008, 120782, 120792, 120802, 120812, 120822, 123200, 123632,
   125264, 130032]

/-- The decimal value CPython assigns to a character, when the
character is a Unicode decimal digit. -/
def pyDigitVal (c : Char) : Option Nat :=
  match decimalDigitBlockStarts.find?
      (fun s => decide (s ≤ c.toNat) && decide (c.toNat < s + 10)) with
  | none => none
  | some s => some (c.toNat - s)

/-- The code points CPython `str.isspace()` holds to be whitespace;
`int()` strips them from both ends of its argument. -/
def pySpaceCodes : List Nat :=
  [9, 10, 11, 12, 13, 28, 29, 30, 31, 32, 133, 160, 5760, 8192, 8193,
   8194, 8195, 8196, 8197, 8198, 8199, 8200, 8201, 8202, 8232, 8233,
   8239, 8287, 12288]

def isPySpace (c : Char) : Bool :=
  pySpaceCodes.contains c.toNat

/-- Digit characters after the first one: a single underscore may stand
between two digits (PEP 515), never doubled, leading or trailing. -/
def digitTailVals : List Char → Option (List Nat)
  | [] => some []
  | '_' :: c :: rest =>
      match pyDigitVal c with
      | none => none
      | some d =>
          match digitTailVals rest with
          | none => none
          | some ds => some (d :: ds)
  | c :: rest =>
      match pyDigitVal c with
      | none => none
      | some d =>
          match digitTailVals rest with
          | none => none
          | some ds => some (d :: ds)

/-- A nonempty digit run: a digit first, then `digitTailVals`. -/
def digitRunVals : List Char → Option (List Nat)
  | [] => none
  | c :: rest =>
      match pyDigitVal c with
      | none => none
      | some d =>
          match digitTailVals rest with
          | none => none
          | some ds => some (d :: ds)

/-- Numeric value of a list of decimal digit values. -/
def digitsVal (ds : List Nat) : Nat :=
  ds.foldl (fun acc d => acc * 10 + d) 0

/-- CPython `int(s)` in base 10, as the upload handler calls it on line
737: Unicode whitespace is stripped from both ends, an optional ASCII
sign follows, then a nonempty run of Unicode decimal digits in which
single underscores may separate digits (PEP 515). -/
def pyParseInt (s : String) : Option Int :=
  let t : List Char :=
    ((s.data.dropWhile isPySpace).reverse.dropWhile isPySpace).reverse
  let signed : Bool × List Char :=
    match t with
    | [] => (false, [])
    | c :: rest =>
        if c = '-' then (true, rest)
        else if c = '+' then (false, rest)
        else (false, c :: rest)
  match digitRunVals signed.2 with
  | none => none
  | some ds =>
      some
        (if signed.1 then -(digitsVal ds : Int) else (digitsVal ds : Int))

/-- The size-parsing loop of `_serve_file_upload` (lines 734-750):
returns the parsed sizes, or `none` as soon as one entry fails
`int(...)` or parses negative (both raise a 422 in the handler). -/
def parseFileSizes : List String → Option (List Int)
  | [] => some []
  | s :: rest =>
      match pyParseInt s with
      | none => none
      | some v =>
          if v < 0 then none
          else
            match parseFileSizes rest with
            | none => none
            | some vs => some (v :: vs)

/-- A single file size entry that makes the handler raise 422:
unparseable by `int(...)`, or negative. -/
def badFileSizeB (s : String) : Bool :=
  match pyParseInt s with
  | none => true
  | some v => v < 0

/-- `_serve_file_upload` (lines 699-767).  The pending-uploads map
(`_pending_file_uploads`) maps upload tokens to futures, identified by
a number; an upload stream is kept as its opaque contents.  Returns the
map after the call, the HTTP result, and the value passed to
`future.set_result`, if the future was resolved. -/
def serve_file_upload (pendingFileUploads : List (String × Nat))
    (uploadToken : String) (fileNames fileTypes fileSizes : List String)
    (fileStreams : List String) :
    List (String × Nat) × UploadResult × Option (List FileInfo) :=
  match dictLookup pendingFileUploads uploadToken with
  | none =>
      (pendingFileUploads, UploadResult.httpError400 "Invalid upload token.",
        none)
  | some _future =>
      let pending₁ := dictErase pendingFileUploads uploadToken
      let nNames := fileNames.length
      let nTypes := fileTypes.length
      let nSizes := fileSizes.length
      let nStreams := fileStreams.length
      if nNames ≠ nTypes ∨ nNames ≠ nSizes ∨ nNames ≠ nStreams then
        (pending₁,
          UploadResult.httpError422
            "Inconsistent number of files between the different message parts.",
          none)
      else
        match parseFileSizes fileSizes with
        | none =>
            (pending₁, UploadResult.httpError422 "Invalid file size.", none)
        | some parsedFileSizes =>
            let files : List FileInfo :=
              (List.range nNames).map (fun ii =>
                { name := fileNames.getD ii ""
                  size_in_bytes := parsedFileSizes.getD ii 0
                  media_type := fileTypes.getD ii ""
                  contents := fileStreams.getD ii "" })
            (pending₁, UploadResult.response200, some files)

/-- How the `await sess.serve()` call of `_serve_websocket` ends
(lines 885-897): cancelled, a `WebSocketDisconnect` with a close code,
a plain return, or some other exception (which propagates). -/
inductive ServeOutcome where
  | cancelled
  | webSocketDisconnect (code : Int)
  | normalReturn
  | otherError
deriving DecidableEq, Repr

/-- Modelled from the spec: `rio.Session.close` is not part of this
file (only `rio/app_server/fastapi_server.py` is available); per the
spec, closing a session terminates it and removes its entry from the
active map. -/
def sessionCloseRemoves (active : List (String × Session)) (token : String) :
    List (String × Session) :=
  dictErase active token

/-- The tail of `_serve_websocket` (lines 878-900): the
`except`/`else`/`finally` handling after `sess.serve()` ends.  On a
`WebSocketDisconnect` with code 1001 (and on a plain return) the
session is closed; cancellation and all other outcomes leave the map
entry in place.  The `finally` block then clears `sess._websocket` and
`sess._is_active_event` on the session object, visible through the map
only while the entry is still present. -/
def handleServeEnd (active : List (String × Session)) (token : String)
    (outcome : ServeOutcome) : List (String × Session) :=
  let afterBranch :=
    match outcome with
    | ServeOutcome.cancelled => active
    | ServeOutcome.webSocketDisconnect code =>
        if code = 1001 then sessionCloseRemoves active token else active
    | ServeOutcome.normalReturn => sessionCloseRemoves active token
    | ServeOutcome.otherError => active
  match dictLookup afterBranch token with
  | none => afterBranch
  | some sess =>
      dictInsert afterBranch token
        { sess with websocket := none, isActiveEvent := false }

/-- What the shutdown half of `_lifespan` (lines 314-334) did: the
tokens whose sessions had `_close(close_remote_session=True)` gathered,
the exceptions printed from the gathered results, and whether
`_call_on_app_close` ran. -/
structure ShutdownTrace where
  closeInitiated : List String
  printedErrors : List String
  appCloseCalled : Bool
deriving DecidableEq, Repr

/-- The shutdown half of `_lifespan` (lines 314-334):
`asyncio.gather(..., return_exceptions=True)` over the `_close`
coroutine of every active session, so every close runs to completion
or failure and exceptions are returned, not raised; the failures are
printed and `_call_on_app_close` is awaited afterwards,
unconditionally.  `closeOutcome` gives each close coroutine its
result. -/
def lifespanShutdown (active : List (String × Session))
    (closeOutcome : String → Except String Unit) : ShutdownTrace :=
  let results := active.map (fun p => closeOutcome p.1)
  { closeInitiated := active.map Prod.fst
    printedErrors :=
      results.filterMap (fun r =>
        match r with
        | Except.error e => some e
        | Except.ok _ => none)
    appCloseCalled := true }

/-- `weakly_host_asset` (lines 339-349): stores the asset under its
`secret_id` and returns this URL fragment. -/
def weakly_host_asset_url (secret_id : String) : String :=
  "/rio/assets/temp/" ++ secret_id

/-- The route registered for `_serve_temp_asset` in `__init__`
(lines 236-240): `/rio/asset/temp/` followed by the asset id path
parameter. -/
def tempAssetRoutePath : String := "/rio/asset/temp/"

/-- A GET request path reaches `_serve_temp_asset` exactly when it
matches the registered route, i.e. starts with the route path. -/
def reachesServeTempAsset (path : String) : Bool :=
  tempAssetRoutePath.data.isPrefixOf path.data

theorem serveWebsocket_gate_closed (st : ServerState) (token : String)
    (freshId : Nat) (ok : Bool) :
    serveWebsocketUpToServe false st token freshId ok = (st, [], none) := rfl

theorem serveWebsocket_latent (st : ServerState) (token : String)
    (freshId : Nat) (ok : Bool) (request : Nat)
    (h : dictLookup st.latentSessionTokens token = some request) :
    serveWebsocketUpToServe true st token freshId ok =
      if ok then
        ({ latentSessionTokens := dictErase st.latentSessionTokens token
           activeSessionTokens :=
             dictInsert st.activeSessionTokens token
               ⟨freshId, some 0, true, 0⟩ },
         [WsAction.acceptSocket,
          WsAction.createTask (InitCoro.refresh freshId),
          WsAction.serve freshId],
         some ⟨freshId, some 0, true, 0⟩)
      else
        ({ latentSessionTokens := dictErase st.latentSessionTokens token
           activeSessionTokens := st.activeSessionTokens },
         [WsAction.acceptSocket], none) := by
  unfold serveWebsocketUpToServe
  rw [h]
  by_cases hok : ok
  · simp [hok]
  · simp [hok]

theorem serveWebsocket_reconnect (st : ServerState) (token : String)
    (freshId : Nat) (ok : Bool) (sess : Session)
    (hL : dictLookup st.latentSessionTokens token = none)
    (hA : dictLookup st.activeSessionTokens token = some sess) :
    serveWebsocketUpToServe true st token freshId ok =
      ({ latentSessionTokens := st.latentSessionTokens
         activeSessionTokens :=
           dictInsert st.activeSessionTokens token
             { sess with isActiveEvent := true } },
       [WsAction.acceptSocket,
        WsAction.setIsActiveEvent sess.sessionId,
        WsAction.createTask
          (InitCoro.sendAllComponentsOnReconnect sess.sessionId),
        WsAction.serve sess.sessionId],
       some { sess with isActiveEvent := true }) := by
  unfold serveWebsocketUpToServe
  rw [hL, hA]
  simp

theorem serveWebsocket_unknown (st : ServerState) (token : String)
    (freshId : Nat) (ok : Bool)
    (hL : dictLookup st.latentSessionTokens token = none)
    (hA : dictLookup st.activeSessionTokens token = none) :
    serveWebsocketUpToServe true st token freshId ok =
      (st,
       [WsAction.acceptSocket,
        WsAction.closeSocket 3000 "Invalid session token."],
       none) := by
  unfold serveWebsocketUpToServe
  rw [hL, hA]
  simp

/-- Claim C1: a session token is present in at most one of the latent
and active maps at every instant, and a freshly issued token appears in
exactly one of them: registration by `_serve_index` inserts it only
into the latent map, and websocket promotion pops it from the latent
map before the active-map insertion, so the exclusivity invariant is
preserved by both operations. -/
theorem token_in_at_most_one_map
    (st : ServerState) (token : String) (request freshId : Nat)
    (creationOk : Bool)
    (hdisj : mapsDisjoint st)
    (hfreshL : dictLookup st.latentSessionTokens token = none)
    (hfreshA : dictLookup st.activeSessionTokens token = none) :
    (dictLookup (serveIndexRegisterToken st token request).latentSessionTokens
        token = some request
      ∧ (serveIndexRegisterToken st token request).activeSessionTokens
          = st.activeSessionTokens
      ∧ mapsDisjoint (serveIndexRegisterToken st token request))
    ∧ (dictLookup (serveWebsocketUpToServe true
          (serveIndexRegisterToken st token request) token freshId
          creationOk).1.latentSessionTokens token = none
      ∧ (creationOk = true →
          (dictLookup (serveWebsocketUpToServe true
            (serveIndexRegisterToken st token request) token freshId
            creationOk).1.activeSessionTokens token).isSome = true)
      ∧ mapsDisjoint (serveWebsocketUpToServe true
          (serveIndexRegisterToken st token request) token freshId
          creationOk).1) := by
  have hlatent_eq :
      (serveIndexRegisterToken st token request).latentSessionTokens
        = dictInsert st.latentSessionTokens token request := rfl
  have hactive_eq :
      (serveIndexRegisterToken st token request).activeSessionTokens
        = st.activeSessionTokens := rfl
  have hlat :
      dictLookup (serveIndexRegisterToken st token request).latentSessionTokens
        token = some request := by
    rw [hlatent_eq]
    exact dictLookup_insert _ _ _
  have hred := serveWebsocket_latent (serveIndexRegisterToken st token request)
    token freshId creationOk request hlat
  constructor
  · refine ⟨hlat, rfl, ?_⟩
    intro t ht
    rw [hlatent_eq] at ht
    rw [hactive_eq]
    by_cases hteq : t = token
    · subst hteq
      exact hfreshA
    · rw [dictLookup_insert_ne _ _ _ _ (fun hc => hteq hc.symm)] at ht
      exact hdisj t ht
  · by_cases hok : creationOk
    · subst hok
      rw [if_pos rfl] at hred
      rw [hred]
      refine ⟨dictLookup_erase _ _, fun _ => ?_, ?_⟩
      · rw [dictLookup_insert]
        rfl
      · intro t ht
        by_cases hteq : t = token
        · subst hteq
          rw [dictLookup_erase] at ht
          simp at ht
        · have hne : token ≠ t := fun hc => hteq hc.symm
          rw [dictLookup_erase_ne _ _ _ hne, hlatent_eq,
            dictLookup_insert_ne _ _ _ _ hne] at ht
          rw [dictLookup_insert_ne _ _ _ _ hne, hactive_eq]
          exact hdisj t ht
    · have hok₂ : creationOk = false := by
        cases creationOk
        · rfl
        · exact absurd rfl hok
      subst hok₂
      rw [if_neg (by simp)] at hred
      rw [hred]
      refine ⟨dictLookup_erase _ _, fun hc => by simp at hc, ?_⟩
      intro t ht
      by_cases hteq : t = token
      · subst hteq
        rw [dictLookup_erase] at ht
        simp at ht
      · have hne : token ≠ t := fun hc => hteq hc.symm
        rw [dictLookup_erase_ne _ _ _ hne, hlatent_eq,
          dictLookup_insert_ne _ _ _ _ hne] at ht
        rw [hactive_eq]
        exact hdisj t ht

theorem token_in_at_most_one_map_witness :
    mapsDisjoint ⟨[], []⟩
    ∧ dictLookup (serveIndexRegisterToken ⟨[], []⟩ "t" 1).latentSessionTokens
        "t" = some 1
    ∧ dictLookup (serveWebsocketUpToServe true
        (serveIndexRegisterToken ⟨[], []⟩ "t" 1) "t" 5
        true).1.latentSessionTokens "t" = none
    ∧ (dictLookup (serveWebsocketUpToServe true
        (serveIndexRegisterToken ⟨[], []⟩ "t" 1) "t" 5
        true).1.activeSessionTokens "t").isSome = true :=
  have hdisj : mapsDisjoint ⟨[], []⟩ := fun t ht => by
    simp [dictLookup] at ht
  have h := token_in_at_most_one_map ⟨[], []⟩ "t" 1 5 true hdisj rfl rfl
  ⟨hdisj, h.1.1, h.2.1, h.2.2.1 rfl⟩

/-- Claim C2: a websocket connection whose token is in neither map is
closed with code 3000 and the message given on line 860, and the
handler returns with the state untouched and no session created. -/
theorem unknown_token_rejected_with_3000
    (st : ServerState) (token : String) (freshId : Nat) (creationOk : Bool)
    (hL : dictLookup st.latentSessionTokens token = none)
    (hA : dictLookup st.activeSessionTokens token = none) :
    serveWebsocketUpToServe true st token freshId creationOk
      = (st,
         [WsAction.acceptSocket,
          WsAction.closeSocket 3000 "Invalid session token."],
         none) :=
  serveWebsocket_unknown st token freshId creationOk hL hA

theorem unknown_token_rejected_with_3000_witness :
    dictLookup (⟨[("other", 0)], []⟩ : ServerState).latentSessionTokens "t"
        = none
    ∧ dictLookup (⟨[("other", 0)], []⟩ : ServerState).activeSessionTokens "t"
        = none
    ∧ serveWebsocketUpToServe true ⟨[("other", 0)], []⟩ "t" 7 true
        = (⟨[("other", 0)], []⟩,
           [WsAction.acceptSocket,
            WsAction.closeSocket 3000 "Invalid session token."],
           none) :=
  ⟨by decide, rfl,
    unknown_token_rejected_with_3000 ⟨[("other", 0)], []⟩ "t" 7 true
      (by decide) rfl⟩

/-- Claim C3, counterexample: with the gate closed, the handler at this
input performs no action at all, because it is suspended at
`_can_create_new_sessions.wait()` on line 840, which precedes the
`websocket.accept()` on line 845; in particular the socket is never
accepted and no close code is sent, refuting the claimed
accept-then-terminate behaviour. -/
theorem gate_closed_claim_counterexample :
    (serveWebsocketUpToServe false ⟨[], []⟩ "t" 0 true).2.1 = []
    ∧ WsAction.acceptSocket ∉
        (serveWebsocketUpToServe false ⟨[], []⟩ "t" 0 true).2.1 := by
  decide

/-- Claim C3 as amended: while the gate is closed the handler is
suspended before the accept: the state is untouched, no action is taken
and no session is looked up, created or resumed; once the gate is open
the handler proceeds, its first action being the socket accept. -/
theorem gate_closed_suspends_before_accept
    (st : ServerState) (token : String) (freshId : Nat) (ok : Bool) :
    serveWebsocketUpToServe false st token freshId ok = (st, [], none)
    ∧ (serveWebsocketUpToServe true st token freshId ok).2.1.head?
        = some WsAction.acceptSocket := by
  refine ⟨rfl, ?_⟩
  rcases hL : dictLookup st.latentSessionTokens token with _ | request
  · rcases hA : dictLookup st.activeSessionTokens token with _ | sess
    · rw [serveWebsocket_unknown st token freshId ok hL hA]
      rfl
    · rw [serveWebsocket_reconnect st token freshId ok sess hL hA]
      rfl
  · rw [serveWebsocket_latent st token freshId ok request hL]
    by_cases hok : ok
    · simp [hok]
    · simp [hok]

/-- Claim C4: a connection whose token is only in the active map
resumes the very session stored there (same identity, the fresh
session id is unused), sets its is-active event, and launches the
full-state resend task for that session. -/
theorem reconnect_resumes_same_session
    (st : ServerState) (token : String) (freshId : Nat) (ok : Bool)
    (sess : Session)
    (hL : dictLookup st.latentSessionTokens token = none)
    (hA : dictLookup st.activeSessionTokens token = some sess) :
    (serveWebsocketUpToServe true st token freshId ok).2.2
        = some { sess with isActiveEvent := true }
    ∧ (serveWebsocketUpToServe true st token freshId ok).2.1
        = [WsAction.acceptSocket,
           WsAction.setIsActiveEvent sess.sessionId,
           WsAction.createTask
             (InitCoro.sendAllComponentsOnReconnect sess.sessionId),
           WsAction.serve sess.sessionId]
    ∧ dictLookup (serveWebsocketUpToServe true st token freshId
          ok).1.activeSessionTokens token
        = some { sess with isActiveEvent := true }
    ∧ (serveWebsocketUpToServe true st token freshId ok).1.latentSessionTokens
        = st.latentSessionTokens := by
  rw [serveWebsocket_reconnect st token freshId ok sess hL hA]
  exact ⟨rfl, rfl, dictLookup_insert _ _ _, rfl⟩

theorem reconnect_resumes_same_session_witness :
    dictLookup
        (⟨[], [("t", ⟨9, none, false, 123⟩)]⟩ :
          ServerState).latentSessionTokens "t" = none
    ∧ dictLookup
        (⟨[], [("t", ⟨9, none, false, 123⟩)]⟩ :
          ServerState).activeSessionTokens "t" = some ⟨9, none, false, 123⟩
    ∧ (serveWebsocketUpToServe true ⟨[], [("t", ⟨9, none, false, 123⟩)]⟩
        "t" 5 true).2.2 = some ⟨9, none, true, 123⟩ :=
  ⟨rfl, by decide,
    (reconnect_resumes_same_session ⟨[], [("t", ⟨9, none, false, 123⟩)]⟩
      "t" 5 true ⟨9, none, false, 123⟩ rfl (by decide)).1⟩

/-- Claim C5: one reaper pass computes the cutoff now minus 60 minutes
and closes exactly the active sessions whose last interaction predates
it, regardless of connection state; a 59-minute-old session survives,
and the loop sleeps 15 minutes between passes. -/
theorem reaper_pass_closes_exactly_expired
    (now : Int) (active : List (String × Session)) (sess : Session) :
    (sess ∈ reaperPassClosedSessions now active ↔
        sess ∈ active.map Prod.snd
          ∧ sess.lastInteractionTimestamp < now - 60 * 60)
    ∧ (sess.lastInteractionTimestamp = now - 59 * 60 →
        sess ∉ reaperPassClosedSessions now active)
    ∧ LOOP_INTERVAL = 15 * 60
    ∧ reaperCutoff now = now - 60 * 60 := by
  have hcut : reaperCutoff now = now - 60 * 60 := by
    unfold reaperCutoff SESSION_LIFETIME
    norm_num
  have hmem : sess ∈ reaperPassClosedSessions now active ↔
      sess ∈ active.map Prod.snd
        ∧ sess.lastInteractionTimestamp < now - 60 * 60 := by
    unfold reaperPassClosedSessions
    rw [List.mem_filter, hcut]
    simp
  refine ⟨hmem, ?_, by norm_num [LOOP_INTERVAL], hcut⟩
  intro h59 hin
  have hlt := (hmem.mp hin).2
  rw [h59] at hlt
  omega

theorem reaper_pass_closes_exactly_expired_witness :
    (⟨1, none, false, 6460⟩ : Session).lastInteractionTimestamp
        = 10000 - 59 * 60
    ∧ (⟨1, none, false, 6460⟩ : Session) ∉
        reaperPassClosedSessions 10000 [("a", ⟨1, none, false, 6460⟩)] :=
  ⟨by decide,
    (reaper_pass_closes_exactly_expired 10000 [("a", ⟨1, none, false, 6460⟩)]
      ⟨1, none, false, 6460⟩).2.1 (by decide)⟩

theorem parseFileSizes_eq_none_iff (sizes : List String) :
    parseFileSizes sizes = none ↔ ∃ s, s ∈ sizes ∧ badFileSizeB s = true := by
  induction sizes with
  | nil => simp [parseFileSizes]
  | cons hd tl ih =>
      simp only [parseFileSizes]
      rcases hp : pyParseInt hd with _ | v
      · constructor
        · intro _
          exact ⟨hd, List.mem_cons_self hd tl, by simp [badFileSizeB, hp]⟩
        · intro _
          rfl
      · dsimp only
        by_cases hv : v < 0
        · rw [if_pos hv]
          constructor
          · intro _
            exact ⟨hd, List.mem_cons_self hd tl,
              by simp [badFileSizeB, hp, hv]⟩
          · intro _
            rfl
        · rw [if_neg hv]
          have hbadhd : badFileSizeB hd = false := by
            simp [badFileSizeB, hp]
            omega
          rcases hr : parseFileSizes tl with _ | vs
          · constructor
            · intro _
              rcases ih.mp hr with ⟨s, hs, hbad⟩
              exact ⟨s, List.mem_cons_of_mem hd hs, hbad⟩
            · intro _
              rfl
          · constructor
            · intro hc
              simp at hc
            · rintro ⟨s, hs, hbad⟩
              rcases List.mem_cons.mp hs with hseq | hstl
              · subst hseq
                rw [hbadhd] at hbad
                cases hbad
              · have htl : parseFileSizes tl = none := ih.mpr ⟨s, hstl, hbad⟩
                rw [htl] at hr
                cases hr

theorem serve_file_upload_unknown_token
    (pending : List (String × Nat)) (token : String)
    (names types sizes streams : List String)
    (h : dictLookup pending token = none) :
    serve_file_upload pending token names types sizes streams
      = (pending, UploadResult.httpError400 "Invalid upload token.",
         none) := by
  unfold serve_file_upload
  rw [h]

theorem serve_file_upload_known_token
    (pending : List (String × Nat)) (token : String)
    (names types sizes streams : List String) (fut : Nat)
    (h : dictLookup pending token = some fut) :
    serve_file_upload pending token names types sizes streams
      = (dictErase pending token,
         if names.length ≠ types.length ∨ names.length ≠ sizes.length
            ∨ names.length ≠ streams.length then
           (UploadResult.httpError422
              "Inconsistent number of files between the different message parts.",
            none)
         else
           match parseFileSizes sizes with
           | none => (UploadResult.httpError422 "Invalid file size.", none)
           | some parsedFileSizes =>
               (UploadResult.response200,
                some ((List.range names.length).map (fun ii =>
                  { name := names.getD ii ""
                    size_in_bytes := parsedFileSizes.getD ii 0
                    media_type := types.getD ii ""
                    contents := streams.getD ii "" })))) := by
  unfold serve_file_upload
  rw [h]
  by_cases hmis : names.length ≠ types.length ∨ names.length ≠ sizes.length
      ∨ names.length ≠ streams.length
  · rw [if_pos hmis, if_pos hmis]
  · rw [if_neg hmis, if_neg hmis]
    rcases hps : parseFileSizes sizes with _ | vs
    · rfl
    · rfl

/-- Claim C6: an unknown or expired upload token yields a 400 with the
map untouched; a known token is removed from the map on lookup
regardless of the outcome, so it is single-use and a second completion
call with the same token fails with 400 without resolving anything. -/
theorem upload_token_single_use
    (pending : List (String × Nat)) (token : String)
    (names types sizes streams : List String) (fut : Nat) :
    (dictLookup pending token = none →
        serve_file_upload pending token names types sizes streams
          = (pending, UploadResult.httpError400 "Invalid upload token.",
             none))
    ∧ (dictLookup pending token = some fut →
        dictLookup (serve_file_upload pending token names types sizes
            streams).1 token = none
        ∧ serve_file_upload (serve_file_upload pending token names types
              sizes streams).1 token names types sizes streams
            = ((serve_file_upload pending token names types sizes
                  streams).1,
               UploadResult.httpError400 "Invalid upload token.",
               none)) := by
  constructor
  · intro h
    exact serve_file_upload_unknown_token pending token names types sizes
      streams h
  · intro h
    have hrm : (serve_file_upload pending token names types sizes
        streams).1 = dictErase pending token := by
      rw [serve_file_upload_known_token pending token names types sizes
        streams fut h]
    have hnone : dictLookup (serve_file_upload pending token names types
        sizes streams).1 token = none := by
      rw [hrm]
      exact dictLookup_erase _ _
    exact ⟨hnone,
      serve_file_upload_unknown_token _ token names types sizes streams
        hnone⟩

theorem upload_token_single_use_witness :
    dictLookup [("u", 7)] "u" = some 7
    ∧ dictLookup (serve_file_upload [("u", 7)] "u" ["a"] ["x"] ["3"]
        ["s"]).1 "u" = none
    ∧ serve_file_upload (serve_file_upload [("u", 7)] "u" ["a"] ["x"]
          ["3"] ["s"]).1 "u" ["a"] ["x"] ["3"] ["s"]
        = ((serve_file_upload [("u", 7)] "u" ["a"] ["x"] ["3"] ["s"]).1,
           UploadResult.httpError400 "Invalid upload token.", none) :=
  have h := (upload_token_single_use [("u", 7)] "u" ["a"] ["x"] ["3"]
    ["s"] 7).2 (by decide)
  ⟨by decide, h.1, h.2⟩

/-- Claim C7: with a valid token the endpoint answers 422 without
resolving the future exactly when the four parallel arrays differ in
length or some size entry is unparseable or negative; otherwise it
resolves the future with one FileInfo per stream and answers 200. -/
theorem upload_validation_and_resolution
    (pending : List (String × Nat)) (token : String)
    (names types sizes streams : List String) (fut : Nat)
    (h : dictLookup pending token = some fut) :
    ((names.length ≠ types.length ∨ names.length ≠ sizes.length
        ∨ names.length ≠ streams.length
        ∨ ∃ s, s ∈ sizes ∧ badFileSizeB s = true) →
      (∃ d, (serve_file_upload pending token names types sizes
          streams).2.1 = UploadResult.httpError422 d)
      ∧ (serve_file_upload pending token names types sizes streams).2.2
          = none)
    ∧ ((names.length = types.length ∧ names.length = sizes.length
        ∧ names.length = streams.length
        ∧ ∀ s, s ∈ sizes → badFileSizeB s = false) →
      (serve_file_upload pending token names types sizes streams).2.1
          = UploadResult.response200
      ∧ ∃ files,
          (serve_file_upload pending token names types sizes streams).2.2
            = some files ∧ files.length = streams.length) := by
  rw [serve_file_upload_known_token pending token names types sizes streams
    fut h]
  constructor
  · intro hbad
    by_cases hmis : names.length ≠ types.length
        ∨ names.length ≠ sizes.length ∨ names.length ≠ streams.length
    · rw [if_pos hmis]
      exact ⟨⟨_, rfl⟩, rfl⟩
    · rw [if_neg hmis]
      push_neg at hmis
      have hex : ∃ s, s ∈ sizes ∧ badFileSizeB s = true := by
        rcases hbad with h₁ | h₂ | h₃ | h₄
        · exact absurd h₁ (by simp [hmis.1])
        · exact absurd h₂ (by simp [hmis.2.1])
        · exact absurd h₃ (by simp [hmis.2.2])
        · exact h₄
      rw [(parseFileSizes_eq_none_iff sizes).mpr hex]
      exact ⟨⟨_, rfl⟩, rfl⟩
  · rintro ⟨hT, hS, hStr, hgood⟩
    rw [if_neg (by push_neg; exact ⟨hT, hS, hStr⟩)]
    rcases hps : parseFileSizes sizes with _ | vs
    · rcases (parseFileSizes_eq_none_iff sizes).mp hps with ⟨s, hs, hbad⟩
      rw [hgood s hs] at hbad
      cases hbad
    · refine ⟨rfl, ⟨_, rfl, ?_⟩⟩
      rw [List.length_map, List.length_range]
      exact hStr

theorem upload_validation_and_resolution_witness :
    dictLookup [("u", 7)] "u" = some 7
    ∧ (serve_file_upload [("u", 7)] "u" ["a"] ["x"] ["3"] ["s"]).2.1
        = UploadResult.response200
    ∧ ∃ files,
        (serve_file_upload [("u", 7)] "u" ["a"] ["x"] ["3"] ["s"]).2.2
          = some files ∧ files.length = (["s"] : List String).length :=
  have h := (upload_validation_and_resolution [("u", 7)] "u" ["a"] ["x"]
    ["3"] ["s"] 7 (by decide)).2 (by decide)
  ⟨by decide, h.1, h.2⟩

/-- Claim C8: a disconnect with close code 1001 closes and removes the
session; any other disconnect code, cancellation or error retains the
map entry with the socket cleared and the is-active event cleared. -/
theorem serve_end_1001_closes_others_retain
    (active : List (String × Session)) (token : String) (sess : Session)
    (code : Int)
    (h : dictLookup active token = some sess) :
    dictLookup (handleServeEnd active token
        (ServeOutcome.webSocketDisconnect 1001)) token = none
    ∧ (code ≠ 1001 →
        dictLookup (handleServeEnd active token
            (ServeOutcome.webSocketDisconnect code)) token
          = some { sess with websocket := none, isActiveEvent := false })
    ∧ dictLookup (handleServeEnd active token ServeOutcome.cancelled)
        token = some { sess with websocket := none, isActiveEvent := false }
    ∧ dictLookup (handleServeEnd active token ServeOutcome.otherError)
        token
        = some { sess with websocket := none, isActiveEvent := false } := by
  refine ⟨?_, ?_, ?_, ?_⟩
  · unfold handleServeEnd sessionCloseRemoves
    dsimp only
    rw [if_pos rfl, dictLookup_erase]
    exact dictLookup_erase _ _
  · intro hne
    unfold handleServeEnd
    dsimp only
    rw [if_neg hne, h]
    exact dictLookup_insert _ _ _
  · unfold handleServeEnd
    dsimp only
    rw [h]
    exact dictLookup_insert _ _ _
  · unfold handleServeEnd
    dsimp only
    rw [h]
    exact dictLookup_insert _ _ _

theorem serve_end_1001_closes_others_retain_witness :
    dictLookup [("t", (⟨5, some 0, true, 42⟩ : Session))] "t"
        = some ⟨5, some 0, true, 42⟩
    ∧ dictLookup (handleServeEnd [("t", ⟨5, some 0, true, 42⟩)] "t"
        (ServeOutcome.webSocketDisconnect 1001)) "t" = none
    ∧ dictLookup (handleServeEnd [("t", ⟨5, some 0, true, 42⟩)] "t"
        (ServeOutcome.webSocketDisconnect 1006)) "t"
        = some ⟨5, none, false, 42⟩ :=
  have h := serve_end_1001_closes_others_retain
    [("t", ⟨5, some 0, true, 42⟩)] "t" ⟨5, some 0, true, 42⟩ 1006
    (by decide)
  ⟨by decide, h.1, h.2.1 (by decide)⟩

/-- Claim C9: shutdown initiates the teardown of every active session
and gathers all results; per-session failures are collected into the
printed errors, never propagated, and the app-close hook runs
afterwards in every case. -/
theorem shutdown_closes_all_and_reports
    (active : List (String × Session))
    (closeOutcome : String → Except String Unit)
    (token : String) (sess : Session) (e : String) :
    ((token, sess) ∈ active →
        token ∈ (lifespanShutdown active closeOutcome).closeInitiated)
    ∧ ((token, sess) ∈ active → closeOutcome token = Except.error e →
        e ∈ (lifespanShutdown active closeOutcome).printedErrors)
    ∧ (lifespanShutdown active closeOutcome).appCloseCalled = true := by
  refine ⟨?_, ?_, rfl⟩
  · intro hmem
    unfold lifespanShutdown
    exact List.mem_map.mpr ⟨(token, sess), hmem, rfl⟩
  · intro hmem herr
    unfold lifespanShutdown
    dsimp only
    refine List.mem_filterMap.mpr ⟨Except.error e, ?_, rfl⟩
    exact List.mem_map.mpr ⟨(token, sess), hmem, herr⟩

theorem shutdown_closes_all_and_reports_witness :
    ("a", (⟨1, none, false, 0⟩ : Session))
        ∈ [("a", (⟨1, none, false, 0⟩ : Session))]
    ∧ "a" ∈ (lifespanShutdown [("a", ⟨1, none, false, 0⟩)]
        (fun _ => Except.error "boom")).closeInitiated
    ∧ "boom" ∈ (lifespanShutdown [("a", ⟨1, none, false, 0⟩)]
        (fun _ => Except.error "boom")).printedErrors
    ∧ (lifespanShutdown [("a", ⟨1, none, false, 0⟩)]
        (fun _ => Except.error "boom")).appCloseCalled = true :=
  have h := shutdown_closes_all_and_reports [("a", ⟨1, none, false, 0⟩)]
    (fun _ => Except.error "boom") "a" ⟨1, none, false, 0⟩ "boom"
  ⟨List.mem_cons_self _ _, h.1 (List.mem_cons_self _ _),
    h.2.1 (List.mem_cons_self _ _) rfl, h.2.2⟩

/-- Claim C10 (code bug): the URL fragment returned by
`weakly_host_asset` starts with `/rio/assets/temp/`, yet the route
registered for `_serve_temp_asset` is `/rio/asset/temp/`, so a GET on
the returned fragment never reaches the temp-asset handler. -/
theorem hosted_asset_url_misses_temp_asset_route :
    weakly_host_asset_url "x" = "/rio/assets/temp/x"
    ∧ reachesServeTempAsset (weakly_host_asset_url "x") = false
    ∧ tempAssetRoutePath ≠ "/rio/assets/temp/" :=
  ⟨by decide, by decide, by decide⟩
